import Mathlib

/-!
Verification of the StockSage sentiment-analysis subsystem.

The deterministic sentiment tool (`SentimentAnalysisTool` in
`src/stocksage/tools/sentiment_analysis_tool.py`, duplicated in
`src/tradesymphony/tools/finance_tools.py`) is embedded shallowly below:

* machine hashing (`hashlib.md5`, interpreted as a big integer via
  `int(hexdigest, 16)`) is implemented bit-for-bit over `Nat`;
* Python floats are modelled by `ℚ`; `int(x)` is truncation toward zero;
  `round(x, 2)` rounds to a multiple of 1/100 with ties to even;
* `datetime.now()` is an explicit `today : Int` (days since 1970-01-01)
  threaded through the functions that consult the clock;
* the TextBlob polarity estimator is an opaque pure function
  `pol : String → ℚ` supplied by the caller;
* the single HTTP request of `fetch_stock_news` is an oracle
  `Except String SerperResponse` describing its outcome; Python code that
  raises is modelled with `Option`.
-/

set_option maxRecDepth 4000000
set_option maxHeartbeats 2000000

/-- 32-bit wraparound, modelling unsigned 32-bit arithmetic. -/
def w32 (n : Nat) : Nat := n % 4294967296

/-- Bitwise complement on 32 bits. -/
def w32not (x : Nat) : Nat := 4294967295 - x % 4294967296

/-- Left rotation of a 32-bit word by `s` places. -/
def rotl32 (x s : Nat) : Nat :=
  let y := x % 4294967296
  w32 (y <<< s) + y >>> (32 - s)

/-- Little-endian 32-bit word from a list of bytes. -/
def leWord (bs : List Nat) : Nat := bs.foldr (fun b acc => b % 256 + 256 * acc) 0

/-- The four bytes of a 32-bit word, little-endian. -/
def leBytes (w : Nat) : List Nat := (List.range 4).map (fun i => w / 256 ^ i % 256)

/-- MD5 round constants (RFC 1321). -/
def md5K : List Nat :=
  [3614090360, 3905402710, 606105819, 3250441966, 4118548399, 1200080426,
   2821735955, 4249261313, 1770035416, 2336552879, 4294925233, 2304563134,
   1804603682, 4254626195, 2792965006, 1236535329, 4129170786, 3225465664,
   643717713, 3921069994, 3593408605, 38016083, 3634488961, 3889429448,
   568446438, 3275163606, 4107603335, 1163531501, 2850285829, 4243563512,
   1735328473, 2368359562, 4294588738, 2272392833, 1839030562, 4259657740,
   2763975236, 1272893353, 4139469664, 3200236656, 681279174, 3936430074,
   3572445317, 76029189, 3654602809, 3873151461, 530742520, 3299628645,
   4096336452, 1126891415, 2878612391, 4237533241, 1700485571, 2399980690,
   4293915773, 2240044497, 1873313359, 4264355552, 2734768916, 1309151649,
   4149444226, 3174756917, 718787259, 3951481745]

/-- MD5 per-round left-rotation amounts (RFC 1321). -/
def md5S : List Nat :=
  [7, 12, 17, 22, 7, 12, 17, 22, 7, 12, 17, 22, 7, 12, 17, 22,
   5, 9, 14, 20, 5, 9, 14, 20, 5, 9, 14, 20, 5, 9, 14, 20,
   4, 11, 16, 23, 4, 11, 16, 23, 4, 11, 16, 23, 4, 11, 16, 23,
   6, 10, 15, 21, 6, 10, 15, 21, 6, 10, 15, 21, 6, 10, 15, 21]

/-- Running state of the MD5 compression function. -/
structure MD5State where
  a : Nat
  b : Nat
  c : Nat
  d : Nat
deriving DecidableEq

/-- The MD5 nonlinear mixing function for step `i`. -/
def md5F (i : Nat) (st : MD5State) : Nat :=
  if i < 16 then Nat.lor (Nat.land st.b st.c) (Nat.land (w32not st.b) st.d)
  else if i < 32 then Nat.lor (Nat.land st.d st.b) (Nat.land (w32not st.d) st.c)
  else if i < 48 then Nat.xor st.b (Nat.xor st.c st.d)
  else Nat.xor st.c (Nat.lor st.b (w32not st.d))

/-- The MD5 message-word index for step `i`. -/
def md5G (i : Nat) : Nat :=
  if i < 16 then i
  else if i < 32 then (5 * i + 1) % 16
  else if i < 48 then (3 * i + 5) % 16
  else (7 * i) % 16

/-- One of the 64 steps of the MD5 compression function. -/
def md5Step (M : List Nat) (st : MD5State) (i : Nat) : MD5State :=
  let f := w32 (md5F i st + st.a + md5K.getD i 0 + M.getD (md5G i) 0)
  { a := st.d, b := w32 (st.b + rotl32 f (md5S.getD i 0)), c := st.b, d := st.c }

/-- MD5 compression of one 64-byte block into the running state. -/
def md5Block (st : MD5State) (block : List Nat) : MD5State :=
  let M := (List.range 16).map (fun j => leWord ((block.drop (4 * j)).take 4))
  let e := (List.range 64).foldl (md5Step M) st
  { a := w32 (st.a + e.a), b := w32 (st.b + e.b),
    c := w32 (st.c + e.c), d := w32 (st.d + e.d) }

/-- MD5 padding: 0x80, zeros to 56 mod 64, then the bit length as
64 bits little-endian. -/
def md5Pad (msg : List Nat) : List Nat :=
  let l := msg.length
  let zeros := (119 - l % 64) % 64
  msg ++ 128 :: List.replicate zeros 0
      ++ (List.range 8).map (fun i => 8 * l % 18446744073709551616 / 256 ^ i % 256)

/-- Split a byte list into 64-byte blocks; the fuel argument only bounds
the recursion depth (one element is consumed per step, so the list's
length is enough fuel). -/
def md5ChunksAux : Nat → List Nat → List (List Nat)
  | 0, _ => []
  | _, [] => []
  | fuel + 1, b :: rest => ((b :: rest).take 64) :: md5ChunksAux fuel ((b :: rest).drop 64)

/-- Split a byte list into 64-byte blocks. -/
def md5Chunks (l : List Nat) : List (List Nat) := md5ChunksAux l.length l

/-- The MD5 digest of a byte string, read as the big integer that Python's
`int(hashlib.md5(m).hexdigest(), 16)` produces. -/
def md5Int (msg : List Nat) : Nat :=
  let st := (md5Chunks (md5Pad msg)).foldl md5Block
    ⟨1732584193, 4023233417, 2562383102, 271733878⟩
  (leBytes st.a ++ leBytes st.b ++ leBytes st.c ++ leBytes st.d).foldl
    (fun acc b => acc * 256 + b) 0

/-- UTF-8 encoding of one code point, as Python's `str.encode` uses. -/
def utf8Bytes (c : Char) : List Nat :=
  let n := c.toNat
  if n < 128 then [n]
  else if n < 2048 then [192 + n / 64, 128 + n % 64]
  else if n < 65536 then [224 + n / 4096, 128 + n / 64 % 64, 128 + n % 64]
  else [240 + n / 262144, 128 + n / 4096 % 64, 128 + n / 64 % 64, 128 + n % 64]

/-- `int(hashlib.md5(s.encode()).hexdigest(), 16)` for a string `s`. -/
def stableHash (s : String) : Nat := md5Int ((s.toList.map utf8Bytes).flatten)

/-- Python `int(x)` on a float/rational: truncation toward zero. -/
def pyInt (q : ℚ) : Int := if 0 ≤ q then ⌊q⌋ else ⌈q⌉

/-- Python `round(x, 2)`: nearest multiple of 1/100, ties to even. -/
def pyRound2 (q : ℚ) : ℚ :=
  let x := q * 100
  let n := ⌊x⌋
  let r : Int :=
    if x - n < 1 / 2 then n
    else if 1 / 2 < x - n then n + 1
    else if n % 2 = 0 then n
    else n + 1
  (r : ℚ) / 100

/-- Truthiness of an optional Python string: `None` and `""` are falsy. -/
def pyTruthy : Option String → Bool
  | none => false
  | some s => !(s == "")

/-- Python `str.lower` (ASCII case folding). -/
def strLower (s : String) : String := String.mk (s.toList.map Char.toLower)

/-- Does the second character list start with the first? -/
def leadsWith : List Char → List Char → Bool
  | [], _ => true
  | _ :: _, [] => false
  | a :: l, b :: m => a == b && leadsWith l m

/-- Does the first character list occur contiguously inside the second? -/
def occursIn (needle : List Char) : List Char → Bool
  | [] => leadsWith needle []
  | b :: m => leadsWith needle (b :: m) || occursIn needle m

/-- Python `needle in hay` substring test. -/
def strContains (hay needle : String) : Bool := occursIn needle.toList hay.toList

/-- Civil date (year, month, day) from a count of days since 1970-01-01
in the proleptic Gregorian calendar. -/
def civilFromDays (z : Int) : Int × Nat × Nat :=
  let z' := z + 719468
  let era := z'.ediv 146097
  let doe := (z'.emod 146097).toNat
  let yoe := (doe - doe / 1460 + doe / 36524 - doe / 146096) / 365
  let doy := doe - (365 * yoe + yoe / 4 - yoe / 100)
  let mp := (5 * doy + 2) / 153
  let d := doy - (153 * mp + 2) / 5 + 1
  let m := if mp < 10 then mp + 3 else mp - 9
  ((yoe : Int) + era * 400 + (if m ≤ 2 then 1 else 0), m, d)

/-- Left-pad a numeral with zeros to `w` digits. -/
def padNum (w n : Nat) : String :=
  let s := toString n
  if s.length < w then String.mk (List.replicate (w - s.length) '0') ++ s else s

/-- `strftime("%Y-%m-%d")` of a day count since 1970-01-01. -/
def formatDate (z : Int) : String :=
  let c := civilFromDays z
  (if c.1 < 0 then "-" ++ padNum 4 (-c.1).toNat else padNum 4 c.1.toNat)
    ++ "-" ++ padNum 2 c.2.1 ++ "-" ++ padNum 2 c.2.2

/-- A news item as the Serper payload / fallback generator shapes it:
a dict whose keys `title`, `snippet`, `source`, `link` may be absent. -/
structure NewsItem where
  title : Option String
  snippet : Option String
  source : Option String
  link : Option String
deriving DecidableEq

/-- A processed news item as `_run` appends it to `processed_news`. -/
structure ScoredNewsItem where
  headline : String
  source : String
  date : String
  sentiment : String
  sentiment_score : ℚ
  url : String
  snippet : String
deriving DecidableEq

/-- The analyst-ratings dict `{buy, hold, sell}`. -/
structure AnalystRatings where
  buy : Int
  hold : Int
  sell : Int
deriving DecidableEq

/-- The dict returned by `SentimentAnalysisTool._run`. -/
structure SentimentReport where
  ticker : String
  company_name : String
  search_context : String
  overall_sentiment_score : ℚ
  sentiment_label : String
  news_count : Nat
  social_media_mentions : Int
  analyst_ratings : AnalystRatings
  news_items : List ScoredNewsItem
deriving DecidableEq

/-- The parsed JSON body of a successful Serper response: the optional
`news` and `organic` arrays. -/
structure SerperResponse where
  news : Option (List NewsItem)
  organic : Option (List NewsItem)
deriving DecidableEq

namespace Stocksage

/-- The `company_names` table of
`SentimentAnalysisTool.get_company_name_for_ticker`. -/
def company_names : List (String × String) :=
  [("AAPL", "Apple Inc."),
   ("MSFT", "Microsoft Corporation"),
   ("AMZN", "Amazon.com, Inc."),
   ("GOOGL", "Alphabet Inc. (Google)"),
   ("META", "Meta Platforms, Inc."),
   ("TSLA", "Tesla, Inc."),
   ("NVDA", "NVIDIA Corporation"),
   ("JPM", "JPMorgan Chase & Co."),
   ("V", "Visa Inc."),
   ("MA", "Mastercard Incorporated"),
   ("PYPL", "PayPal Holdings, Inc."),
   ("DIS", "The Walt Disney Company"),
   ("NFLX", "Netflix, Inc."),
   ("INTC", "Intel Corporation"),
   ("AMD", "Advanced Micro Devices, Inc."),
   ("IBM", "International Business Machines Corporation"),
   ("CSCO", "Cisco Systems, Inc."),
   ("ADBE", "Adobe Inc."),
   ("CRM", "Salesforce, Inc."),
   ("ORCL", "Oracle Corporation")]

/-- `SentimentAnalysisTool.get_company_name_for_ticker`. -/
def get_company_name_for_ticker (ticker : String) : String :=
  match company_names.lookup ticker with
  | some name => name
  | none => ticker ++ " Corporation"

/-- The `company_info` table of
`SentimentAnalysisTool.get_fallback_news_data`: ticker ↦ (name, industry). -/
def company_info : List (String × String × String) :=
  [("AAPL", "Apple Inc.", "Technology/Consumer Electronics"),
   ("MSFT", "Microsoft Corporation", "Technology/Software"),
   ("AMZN", "Amazon.com, Inc.", "E-commerce/Cloud Computing"),
   ("GOOGL", "Alphabet Inc.", "Technology/Internet Services"),
   ("GOOG", "Alphabet Inc.", "Technology/Internet Services"),
   ("META", "Meta Platforms, Inc.", "Technology/Social Media"),
   ("TSLA", "Tesla, Inc.", "Automotive/Clean Energy"),
   ("NVDA", "NVIDIA Corporation", "Technology/Semiconductors"),
   ("JPM", "JPMorgan Chase & Co.", "Financial Services"),
   ("V", "Visa Inc.", "Financial Services/Payments")]

/-- `company_info.get(ticker, {}).get("name", f"{ticker} Corporation")`. -/
def fallbackCompanyName (ticker : String) : String :=
  match company_info.lookup ticker with
  | some info => info.1
  | none => ticker ++ " Corporation"

/-- `company_info.get(ticker, {}).get("industry", "Technology")`. -/
def fallbackIndustry (ticker : String) : String :=
  match company_info.lookup ticker with
  | some info => info.2
  | none => "Technology"

/-- The hash-based `adjustment` local of `get_deterministic_sentiment`:
`(hash_value % 20 - 10) / 100`. -/
def adjustment (text seed : String) : ℚ :=
  (((stableHash (text ++ seed) % 20 : ℕ) : ℚ) - 10) / 100

/-- `SentimentAnalysisTool.get_deterministic_sentiment`, with the TextBlob
polarity estimator supplied as the pure function `pol`. -/
def get_deterministic_sentiment (pol : String → ℚ) (text seed : String) : ℚ :=
  let sentiment := pol text
  max (min (sentiment + adjustment text seed) 1) (-1)

/-- The `days_back` local of `get_deterministic_date`:
`hash_value % days + 1` with Python `%` semantics. -/
def dateOffsetVal (ticker headline : String) (days : Int) : Int :=
  Int.fmod (stableHash (ticker ++ headline) : Int) days + 1

/-- `days_back`, as a partial value: `none` models the `ZeroDivisionError`
Python's `%` raises when `days = 0`. -/
def dateOffset (ticker headline : String) (days : Int) : Option Int :=
  if days = 0 then none else some (dateOffsetVal ticker headline days)

/-- `SentimentAnalysisTool.get_deterministic_date`; `today` is the current
civil date of `datetime.now()`, in days since 1970-01-01. -/
def get_deterministic_date (today : Int) (ticker headline : String)
    (days : Int) : Option String :=
  (dateOffset ticker headline days).map (fun days_back => formatDate (today - days_back))

/-- `SentimentAnalysisTool.get_deterministic_social_media_mentions`. -/
def get_deterministic_social_media_mentions (ticker : String) (news_count : Int) : Int :=
  let ticker_hash := stableHash ticker
  let base_mentions := ticker_hash % 5000 + 1000
  let news_factor : ℚ := max 1 ((news_count : ℚ) / 2)
  pyInt ((base_mentions : ℚ) * news_factor)

/-- `SentimentAnalysisTool.get_deterministic_analyst_ratings`. -/
def get_deterministic_analyst_ratings (sentiment_score : ℚ) : AnalystRatings :=
  let scaled_sentiment : Int := pyInt ((sentiment_score + 1) * 50)
  let buyFrac : ℚ := (scaled_sentiment : ℚ) / 100
  let sellFrac : ℚ := ((100 - scaled_sentiment : Int) : ℚ) / 100
  let holdFrac : ℚ := 1 - |sentiment_score| / 2
  let total_analysts : ℚ := 25
  { buy := pyInt (total_analysts * buyFrac),
    hold := pyInt (total_analysts * holdFrac),
    sell := pyInt (total_analysts * sellFrac) }

/-- `SentimentAnalysisTool.get_fallback_news_data`. -/
def get_fallback_news_data (ticker : String) (search_query : Option String) :
    List NewsItem :=
  let company_name := fallbackCompanyName ticker
  let industry := fallbackIndustry ticker
  let headlines : List String :=
    if pyTruthy search_query && strContains (strLower (search_query.getD "")) "product" then
      [company_name ++ " (" ++ ticker ++ ") Launches New Product Line to Strong Reviews",
       "Customer Satisfaction High for " ++ company_name ++ "\x27s (" ++ ticker ++ ") Latest Products",
       "Product Innovation Drives Growth at " ++ company_name ++ " (" ++ ticker ++ ")",
       "Market Reception Positive for " ++ company_name ++ "\x27s (" ++ ticker ++ ") Product Strategy",
       company_name ++ " (" ++ ticker ++ ") Product Portfolio Expands in " ++ industry ++ " Sector"]
    else if pyTruthy search_query &&
        (strContains (strLower (search_query.getD "")) "ceo" ||
          strContains (strLower (search_query.getD "")) "leadership") then
      [company_name ++ " (" ++ ticker ++ ") CEO Outlines Vision for Company Growth",
       "Leadership Changes at " ++ company_name ++ " (" ++ ticker ++ ") Seen as Positive by Analysts",
       company_name ++ " (" ++ ticker ++ ") Executive Team Receives Industry Recognition",
       "CEO of " ++ company_name ++ " (" ++ ticker ++ ") Speaks at Industry Conference on Innovation",
       "Leadership Strategy at " ++ company_name ++ " (" ++ ticker ++ ") Focuses on Sustainable Growth"]
    else if pyTruthy search_query && strContains (strLower (search_query.getD "")) "social" then
      [company_name ++ " (" ++ ticker ++ ") Trending on Social Media After Recent Announcement",
       "Social Media Sentiment Strong for " ++ company_name ++ " (" ++ ticker ++ ")",
       company_name ++ " (" ++ ticker ++ ") Social Media Campaign Receives Positive Engagement",
       "Online Presence Growing for " ++ company_name ++ " (" ++ ticker ++ ") in " ++ industry ++ " Space",
       "Social Media Influencers Praise " ++ company_name ++ "\x27s (" ++ ticker ++ ") Latest Initiative"]
    else
      [company_name ++ " (" ++ ticker ++ ") Reports Quarterly Earnings Above Expectations",
       "Analysts Raise Price Target for " ++ company_name ++ " (" ++ ticker ++ ") Citing Strong Growth",
       company_name ++ " (" ++ ticker ++ ") Expands Market Share in " ++ industry ++ " Sector",
       "Market Trends Favorable for " ++ company_name ++ " (" ++ ticker ++ ") This Quarter",
       "Investors React to " ++ company_name ++ "\x27s (" ++ ticker ++ ") Latest Strategic Announcements"]
  let sources := ["Bloomberg", "CNBC", "Wall Street Journal", "Reuters", "Financial Times"]
  let snippet_theme :=
    if pyTruthy search_query then search_query.getD ""
    else industry ++ " business strategy"
  headlines.enum.map (fun p =>
    { title := some p.2,
      snippet := some (company_name ++ " (" ++ ticker
        ++ ") shows promising developments in its " ++ snippet_theme
        ++ " with recent announcements and growing market presence."),
      source := some (sources.getD (p.1 % sources.length) ""),
      link := some ("https://finance.example.com/" ++ strLower ticker
        ++ "/news/" ++ toString p.1) })

/-- `SentimentAnalysisTool.fetch_stock_news`; `net` is the outcome of the
single HTTP request (`requests.post` + `raise_for_status` + `json()`),
an exception being `Except.error`. -/
def fetch_stock_news (net : Except String SerperResponse) (ticker : String)
    (search_query : Option String) : List NewsItem :=
  match net with
  | Except.error _ => get_fallback_news_data ticker search_query
  | Except.ok data =>
    let news_items := data.news.getD []
    if news_items.isEmpty then
      match data.organic with
      | some organic => organic.filter (fun it => it.snippet.isSome)
      | none => news_items
    else news_items

end Stocksage

namespace Stocksage

/-- The analysis text of one news item inside `_run`:
`f"{item.get('title', '')} {item.get('snippet', '')}"`. -/
def itemText (item : NewsItem) : String :=
  item.title.getD "" ++ " " ++ item.snippet.getD ""

/-- The per-item `sentiment_score` local of `_run`. -/
def itemScore (pol : String → ℚ) (ticker : String) (item : NewsItem) : ℚ :=
  get_deterministic_sentiment pol (itemText item) ticker

/-- The per-item sentiment label of `_run`: strict thresholds at ±0.1. -/
def itemLabel (score : ℚ) : String :=
  if score > 1 / 10 then "positive"
  else if score < -(1 / 10) then "negative"
  else "neutral"

/-- The overall sentiment label of `_run`: strict thresholds at ±0.3. -/
def overallLabel (score : ℚ) : String :=
  if score > 3 / 10 then "Bullish"
  else if score < -(3 / 10) then "Bearish"
  else "Neutral"

/-- One iteration of `_run`'s processing loop: the dict appended to
`processed_news` (`none` when the date computation raises). -/
def scoreItem (pol : String → ℚ) (today : Int) (ticker : String) (days : Int)
    (item : NewsItem) : Option ScoredNewsItem :=
  (get_deterministic_date today ticker (item.title.getD "") days).map (fun date =>
    let score := itemScore pol ticker item
    { headline := item.title.getD "No title",
      source := item.source.getD "Unknown",
      date := date,
      sentiment := itemLabel score,
      sentiment_score := pyRound2 score,
      url := item.link.getD "",
      snippet := item.snippet.getD "No content available" })

/-- `_run`'s processing loop over the selected news items; `none` as soon
as one iteration raises. -/
def scoreAll (pol : String → ℚ) (today : Int) (ticker : String) (days : Int) :
    List NewsItem → Option (List ScoredNewsItem)
  | [] => some []
  | item :: rest =>
    match scoreItem pol today ticker days item, scoreAll pol today ticker days rest with
    | some s, some l => some (s :: l)
    | _, _ => none

/-- The slice `news_items[: min(len(news_items), 10)]` that `_run` scores. -/
def takenItems (net : Except String SerperResponse) (ticker : String)
    (search_query : Option String) : List NewsItem :=
  let news_items := fetch_stock_news net ticker search_query
  news_items.take (min news_items.length 10)

/-- The tail of `_run` after the processing loop: assembles the returned
dict from the scored items (`processed`) and the selected raw items
(`items`, whose unrounded scores feed `total_sentiment_score`). -/
def mkReport (pol : String → ℚ) (ticker : String) (search_query : Option String)
    (items : List NewsItem) (processed : List ScoredNewsItem) : SentimentReport :=
  let total_sentiment_score := (items.map (itemScore pol ticker)).sum
  let overall_sentiment_score :=
    if processed.isEmpty then get_deterministic_sentiment pol ticker "fallback"
    else pyRound2 (total_sentiment_score / (processed.length : ℚ))
  { ticker := ticker,
    company_name := get_company_name_for_ticker ticker,
    search_context :=
      if pyTruthy search_query then search_query.getD ""
      else ticker ++ " stock financial news analysis",
    overall_sentiment_score := overall_sentiment_score,
    sentiment_label := overallLabel overall_sentiment_score,
    news_count := processed.length,
    social_media_mentions :=
      get_deterministic_social_media_mentions ticker (processed.length : Int),
    analyst_ratings := get_deterministic_analyst_ratings overall_sentiment_score,
    news_items := processed }

/-- `SentimentAnalysisTool._run`; `none` models an unhandled exception. -/
def run (pol : String → ℚ) (net : Except String SerperResponse) (today : Int)
    (ticker : String) (days : Int) (search_query : Option String) :
    Option SentimentReport :=
  let items := takenItems net ticker search_query
  (scoreAll pol today ticker days items).map (mkReport pol ticker search_query items)

end Stocksage

namespace Tradesymphony

/-- The `company_names` table of tradesymphony's
`SentimentAnalysisTool.get_company_name_for_ticker`. -/
def company_names : List (String × String) :=
  [("AAPL", "Apple Inc."),
   ("MSFT", "Microsoft Corporation"),
   ("AMZN", "Amazon.com, Inc."),
   ("GOOGL", "Alphabet Inc. (Google)"),
   ("META", "Meta Platforms, Inc."),
   ("TSLA", "Tesla, Inc."),
   ("NVDA", "NVIDIA Corporation"),
   ("JPM", "JPMorgan Chase & Co."),
   ("V", "Visa Inc."),
   ("MA", "Mastercard Incorporated"),
   ("PYPL", "PayPal Holdings, Inc."),
   ("DIS", "The Walt Disney Company"),
   ("NFLX", "Netflix, Inc."),
   ("INTC", "Intel Corporation"),
   ("AMD", "Advanced Micro Devices, Inc."),
   ("IBM", "International Business Machines Corporation"),
   ("CSCO", "Cisco Systems, Inc."),
   ("ADBE", "Adobe Inc."),
   ("CRM", "Salesforce, Inc."),
   ("ORCL", "Oracle Corporation")]

/-- Tradesymphony `SentimentAnalysisTool.get_company_name_for_ticker`. -/
def get_company_name_for_ticker (ticker : String) : String :=
  match company_names.lookup ticker with
  | some name => name
  | none => ticker ++ " Corporation"

/-- The `company_info` table of tradesymphony's
`SentimentAnalysisTool.get_fallback_news_data`. -/
def company_info : List (String × String × String) :=
  [("AAPL", "Apple Inc.", "Technology/Consumer Electronics"),
   ("MSFT", "Microsoft Corporation", "Technology/Software"),
   ("AMZN", "Amazon.com, Inc.", "E-commerce/Cloud Computing"),
   ("GOOGL", "Alphabet Inc.", "Technology/Internet Services"),
   ("GOOG", "Alphabet Inc.", "Technology/Internet Services"),
   ("META", "Meta Platforms, Inc.", "Technology/Social Media"),
   ("TSLA", "Tesla, Inc.", "Automotive/Clean Energy"),
   ("NVDA", "NVIDIA Corporation", "Technology/Semiconductors"),
   ("JPM", "JPMorgan Chase & Co.", "Financial Services"),
   ("V", "Visa Inc.", "Financial Services/Payments")]

/-- `company_info.get(ticker, {}).get("name", f"{ticker} Corporation")`. -/
def fallbackCompanyName (ticker : String) : String :=
  match company_info.lookup ticker with
  | some info => info.1
  | none => ticker ++ " Corporation"

/-- `company_info.get(ticker, {}).get("industry", "Technology")`. -/
def fallbackIndustry (ticker : String) : String :=
  match company_info.lookup ticker with
  | some info => info.2
  | none => "Technology"

/-- Tradesymphony `SentimentAnalysisTool.get_deterministic_sentiment`. -/
def get_deterministic_sentiment (pol : String → ℚ) (text seed : String) : ℚ :=
  let sentiment := pol text
  let adjustment : ℚ := (((stableHash (text ++ seed) % 20 : ℕ) : ℚ) - 10) / 100
  max (min (sentiment + adjustment) 1) (-1)

/-- Tradesymphony `SentimentAnalysisTool.get_deterministic_date`. -/
def get_deterministic_date (today : Int) (ticker headline : String)
    (days : Int) : Option String :=
  if days = 0 then none
  else some (formatDate (today - (Int.fmod (stableHash (ticker ++ headline) : Int) days + 1)))

/-- Tradesymphony `SentimentAnalysisTool.get_deterministic_social_media_mentions`. -/
def get_deterministic_social_media_mentions (ticker : String) (news_count : Int) : Int :=
  let ticker_hash := stableHash ticker
  let base_mentions := ticker_hash % 5000 + 1000
  let news_factor : ℚ := max 1 ((news_count : ℚ) / 2)
  pyInt ((base_mentions : ℚ) * news_factor)

/-- Tradesymphony `SentimentAnalysisTool.get_deterministic_analyst_ratings`. -/
def get_deterministic_analyst_ratings (sentiment_score : ℚ) : AnalystRatings :=
  let scaled_sentiment : Int := pyInt ((sentiment_score + 1) * 50)
  let buyFrac : ℚ := (scaled_sentiment : ℚ) / 100
  let sellFrac : ℚ := ((100 - scaled_sentiment : Int) : ℚ) / 100
  let holdFrac : ℚ := 1 - |sentiment_score| / 2
  let total_analysts : ℚ := 25
  { buy := pyInt (total_analysts * buyFrac),
    hold := pyInt (total_analysts * holdFrac),
    sell := pyInt (total_analysts * sellFrac) }

/-- Tradesymphony `SentimentAnalysisTool.get_fallback_news_data`. -/
def get_fallback_news_data (ticker : String) (search_query : Option String) :
    List NewsItem :=
  let company_name := fallbackCompanyName ticker
  let industry := fallbackIndustry ticker
  let headlines : List String :=
    if pyTruthy search_query && strContains (strLower (search_query.getD "")) "product" then
      [company_name ++ " (" ++ ticker ++ ") Launches New Product Line to Strong Reviews",
       "Customer Satisfaction High for " ++ company_name ++ "\x27s (" ++ ticker ++ ") Latest Products",
       "Product Innovation Drives Growth at " ++ company_name ++ " (" ++ ticker ++ ")",
       "Market Reception Positive for " ++ company_name ++ "\x27s (" ++ ticker ++ ") Product Strategy",
       company_name ++ " (" ++ ticker ++ ") Product Portfolio Expands in " ++ industry ++ " Sector"]
    else if pyTruthy search_query &&
        (strContains (strLower (search_query.getD "")) "ceo" ||
          strContains (strLower (search_query.getD "")) "leadership") then
      [company_name ++ " (" ++ ticker ++ ") CEO Outlines Vision for Company Growth",
       "Leadership Changes at " ++ company_name ++ " (" ++ ticker ++ ") Seen as Positive by Analysts",
       company_name ++ " (" ++ ticker ++ ") Executive Team Receives Industry Recognition",
       "CEO of " ++ company_name ++ " (" ++ ticker ++ ") Speaks at Industry Conference on Innovation",
       "Leadership Strategy at " ++ company_name ++ " (" ++ ticker ++ ") Focuses on Sustainable Growth"]
    else if pyTruthy search_query && strContains (strLower (search_query.getD "")) "social" then
      [company_name ++ " (" ++ ticker ++ ") Trending on Social Media After Recent Announcement",
       "Social Media Sentiment Strong for " ++ company_name ++ " (" ++ ticker ++ ")",
       company_name ++ " (" ++ ticker ++ ") Social Media Campaign Receives Positive Engagement",
       "Online Presence Growing for " ++ company_name ++ " (" ++ ticker ++ ") in " ++ industry ++ " Space",
       "Social Media Influencers Praise " ++ company_name ++ "\x27s (" ++ ticker ++ ") Latest Initiative"]
    else
      [company_name ++ " (" ++ ticker ++ ") Reports Quarterly Earnings Above Expectations",
       "Analysts Raise Price Target for " ++ company_name ++ " (" ++ ticker ++ ") Citing Strong Growth",
       company_name ++ " (" ++ ticker ++ ") Expands Market Share in " ++ industry ++ " Sector",
       "Market Trends Favorable for " ++ company_name ++ " (" ++ ticker ++ ") This Quarter",
       "Investors React to " ++ company_name ++ "\x27s (" ++ ticker ++ ") Latest Strategic Announcements"]
  let sources := ["Bloomberg", "CNBC", "Wall Street Journal", "Reuters", "Financial Times"]
  let _search_context :=
    if pyTruthy search_query then strLower (search_query.getD "")
    else "financial performance"
  let snippet_theme :=
    if pyTruthy search_query then search_query.getD ""
    else industry ++ " business strategy"
  headlines.enum.map (fun p =>
    { title := some p.2,
      snippet := some (company_name ++ " (" ++ ticker
        ++ ") shows promising developments in its " ++ snippet_theme
        ++ " with recent announcements and growing market presence."),
      source := some (sources.getD (p.1 % sources.length) ""),
      link := some ("https://finance.example.com/" ++ strLower ticker
        ++ "/news/" ++ toString p.1) })

end Tradesymphony

/-- A concrete polarity estimator (the constant zero function), used to
instantiate the `pol` parameter in concrete evaluations. -/
def polZero : String → ℚ := fun _ => 0

/-- C9: the stocksage and tradesymphony copies of the deterministic
sentiment functions agree on every input. -/
theorem c9_parallel_implementations_equivalent :
    (∀ pol text seed, Stocksage.get_deterministic_sentiment pol text seed
        = Tradesymphony.get_deterministic_sentiment pol text seed) ∧
    (∀ today ticker headline days,
      Stocksage.get_deterministic_date today ticker headline days
        = Tradesymphony.get_deterministic_date today ticker headline days) ∧
    (∀ ticker nc, Stocksage.get_deterministic_social_media_mentions ticker nc
        = Tradesymphony.get_deterministic_social_media_mentions ticker nc) ∧
    (∀ s, Stocksage.get_deterministic_analyst_ratings s
        = Tradesymphony.get_deterministic_analyst_ratings s) ∧
    (∀ ticker q, Stocksage.get_fallback_news_data ticker q
        = Tradesymphony.get_fallback_news_data ticker q) ∧
    (∀ ticker, Stocksage.get_company_name_for_ticker ticker
        = Tradesymphony.get_company_name_for_ticker ticker) := by
  refine ⟨fun _ _ _ => rfl, fun today t h d => ?_, fun _ _ => rfl, fun _ => rfl,
    fun _ _ => rfl, fun _ => rfl⟩
  simp only [Stocksage.get_deterministic_date, Stocksage.dateOffset,
    Stocksage.dateOffsetVal, Tradesymphony.get_deterministic_date]
  split <;> rfl

set_option maxHeartbeats 4000000 in
/-- C10: the two company-name tables inside the stocksage implementation
disagree: GOOG resolves to "GOOG Corporation" in
`get_company_name_for_ticker` but to "Alphabet Inc." in the fallback-news
table, so a fallback report for GOOG pairs company_name "GOOG Corporation"
with headlines about "Alphabet Inc."; GOOGL gives
"Alphabet Inc. (Google)" versus "Alphabet Inc.". -/
theorem c10_company_name_tables_disagree :
    Stocksage.get_company_name_for_ticker "GOOG" = "GOOG Corporation" ∧
    Stocksage.fallbackCompanyName "GOOG" = "Alphabet Inc." ∧
    Stocksage.get_company_name_for_ticker "GOOGL" = "Alphabet Inc. (Google)" ∧
    Stocksage.fallbackCompanyName "GOOGL" = "Alphabet Inc." ∧
    (Stocksage.run polZero (Except.error "network unreachable") 20000 "GOOG" 30 none).map
        (fun r => r.company_name) = some "GOOG Corporation" ∧
    ((Stocksage.get_fallback_news_data "GOOG" none).map
        (fun it => strContains (it.title.getD "") "Alphabet Inc.")).all (fun b => b) = true := by
  refine ⟨rfl, rfl, rfl, rfl, ?_, by decide⟩
  decide

namespace Stocksage

/-- Modelled from the spec: the analyst-ratings contract of §4.6 —
scaled = floor((s+1)·50), buyRatio = scaled/100,
sellRatio = (100−scaled)/100, holdRatio = 1 − |s|/2, each bucket an
independent floor of 25 × its ratio. -/
def analystRatingsSpec (s : ℚ) : AnalystRatings :=
  { buy := ⌊(25 : ℚ) * ((⌊(s + 1) * 50⌋ : ℚ) / 100)⌋,
    hold := ⌊(25 : ℚ) * (1 - |s| / 2)⌋,
    sell := ⌊(25 : ℚ) * (((100 - ⌊(s + 1) * 50⌋ : Int) : ℚ) / 100)⌋ }

end Stocksage

lemma pyInt_of_nonneg {q : ℚ} (h : 0 ≤ q) : pyInt q = ⌊q⌋ := if_pos h

/-- C4: each ratings bucket is an independent floor of 25 × ratio (no
redistribution), and sentiment 0 gives buy = 12, hold = 25, sell = 12,
whose sum 49 ≠ 25 shows no renormalisation happens. -/
theorem c4_analyst_ratings_independent_floors (s : ℚ) (h1 : -1 ≤ s) (h2 : s ≤ 1) :
    Stocksage.get_deterministic_analyst_ratings s = Stocksage.analystRatingsSpec s ∧
    Stocksage.get_deterministic_analyst_ratings 0 = ⟨12, 25, 12⟩ ∧
    (Stocksage.get_deterministic_analyst_ratings 0).buy
      + (Stocksage.get_deterministic_analyst_ratings 0).hold
      + (Stocksage.get_deterministic_analyst_ratings 0).sell ≠ 25 := by
  refine ⟨?_, by with_unfolding_all decide, by with_unfolding_all decide⟩
  have hs0 : (0 : ℚ) ≤ (s + 1) * 50 := by nlinarith
  have habs : |s| ≤ 1 := abs_le.mpr ⟨h1, h2⟩
  have hfl0 : (0 : ℚ) ≤ (⌊(s + 1) * 50⌋ : ℚ) := by exact_mod_cast Int.floor_nonneg.mpr hs0
  have hfl100 : (⌊(s + 1) * 50⌋ : ℚ) ≤ 100 := le_trans (Int.floor_le _) (by nlinarith)
  simp only [Stocksage.get_deterministic_analyst_ratings, Stocksage.analystRatingsSpec]
  rw [pyInt_of_nonneg hs0,
    pyInt_of_nonneg (mul_nonneg (by norm_num) (div_nonneg hfl0 (by norm_num))),
    pyInt_of_nonneg (by nlinarith [abs_nonneg s]),
    pyInt_of_nonneg (mul_nonneg (by norm_num) (div_nonneg (by push_cast; linarith) (by norm_num)))]

/-- C4 witness: the theorem applied at the concrete score 1/2. -/
theorem c4_witness :
    Stocksage.get_deterministic_analyst_ratings (1 / 2)
        = Stocksage.analystRatingsSpec (1 / 2) ∧
    Stocksage.get_deterministic_analyst_ratings 0 = ⟨12, 25, 12⟩ ∧
    (Stocksage.get_deterministic_analyst_ratings 0).buy
      + (Stocksage.get_deterministic_analyst_ratings 0).hold
      + (Stocksage.get_deterministic_analyst_ratings 0).sell ≠ 25 :=
  c4_analyst_ratings_independent_floors (1 / 2) (by norm_num) (by norm_num)

/-- C6: sentiment labels use strict comparisons — per-item scores above
0.1 are "positive", below −0.1 "negative", the boundaries themselves
"neutral"; the aggregate labels are strict at ±0.3, so 0.3 and −0.3 both
give "Neutral". -/
theorem c6_label_thresholds_strict (s t : ℚ) (hs : 1 / 10 < s) (ht : t < -(1 / 10)) :
    Stocksage.itemLabel s = "positive" ∧
    Stocksage.itemLabel t = "negative" ∧
    Stocksage.itemLabel (1 / 10) = "neutral" ∧
    Stocksage.itemLabel (-(1 / 10)) = "neutral" ∧
    Stocksage.overallLabel (3 / 10) = "Neutral" ∧
    Stocksage.overallLabel (-(3 / 10)) = "Neutral" := by
  refine ⟨?_, ?_, by with_unfolding_all decide, by with_unfolding_all decide,
    by with_unfolding_all decide, by with_unfolding_all decide⟩
  · simp only [Stocksage.itemLabel, if_pos hs]
  · have hns : ¬(1 / 10 : ℚ) < t := by linarith
    simp only [Stocksage.itemLabel, gt_iff_lt, if_neg hns, if_pos ht]

/-- C6 witness: the theorem applied at scores 1 and −1. -/
theorem c6_witness :
    Stocksage.itemLabel 1 = "positive" ∧
    Stocksage.itemLabel (-1) = "negative" ∧
    Stocksage.itemLabel (1 / 10) = "neutral" ∧
    Stocksage.itemLabel (-(1 / 10)) = "neutral" ∧
    Stocksage.overallLabel (3 / 10) = "Neutral" ∧
    Stocksage.overallLabel (-(3 / 10)) = "Neutral" :=
  c6_label_thresholds_strict 1 (-1) (by norm_num) (by norm_num)
set_option maxHeartbeats 2000000

/-- C5: the fallback news generator always returns exactly 5 items, and
for ("AAPL", "CEO reputation") every title mentions "Apple Inc." and
"AAPL", the titles being exactly the five leadership templates. -/
theorem c5_fallback_news_five_leadership_items :
    (∀ ticker q, (Stocksage.get_fallback_news_data ticker q).length = 5) ∧
    (Stocksage.get_fallback_news_data "AAPL" (some "CEO reputation")).length = 5 ∧
    ((Stocksage.get_fallback_news_data "AAPL" (some "CEO reputation")).map
        (fun it => strContains (it.title.getD "") "Apple Inc."
          && strContains (it.title.getD "") "AAPL")).all (fun b => b) = true ∧
    (Stocksage.get_fallback_news_data "AAPL" (some "CEO reputation")).map
        (fun it => it.title.getD "")
      = ["Apple Inc. (AAPL) CEO Outlines Vision for Company Growth",
         "Leadership Changes at Apple Inc. (AAPL) Seen as Positive by Analysts",
         "Apple Inc. (AAPL) Executive Team Receives Industry Recognition",
         "CEO of Apple Inc. (AAPL) Speaks at Industry Conference on Innovation",
         "Leadership Strategy at Apple Inc. (AAPL) Focuses on Sustainable Growth"] := by
  refine ⟨fun ticker q => ?_, by decide, by decide, by decide⟩
  simp only [Stocksage.get_fallback_news_data, List.length_map, List.enum_length]
  split
  · rfl
  split
  · rfl
  split <;> rfl

/-- C3: the hash jitter lies in [−0.1, 0.1]; the clamped per-item score
lies in [−1, 1]; for days ≥ 1 the inferred date offset lies in [1, days];
and the social-media mention count is at least 1000. -/
theorem c3_range_bounds (pol : String → ℚ) (text seed ticker headline : String)
    (days nc : Int) (hd : 1 ≤ days) :
    -(1 / 10) ≤ Stocksage.adjustment text seed ∧
    Stocksage.adjustment text seed ≤ 1 / 10 ∧
    -1 ≤ Stocksage.get_deterministic_sentiment pol text seed ∧
    Stocksage.get_deterministic_sentiment pol text seed ≤ 1 ∧
    1 ≤ Stocksage.dateOffsetVal ticker headline days ∧
    Stocksage.dateOffsetVal ticker headline days ≤ days ∧
    1000 ≤ Stocksage.get_deterministic_social_media_mentions ticker nc := by
  have hlt : stableHash (text ++ seed) % 20 < 20 := Nat.mod_lt _ (by norm_num)
  have h0 : (0 : ℚ) ≤ ((stableHash (text ++ seed) % 20 : ℕ) : ℚ) := Nat.cast_nonneg _
  have h19 : ((stableHash (text ++ seed) % 20 : ℕ) : ℚ) ≤ 19 := by
    exact_mod_cast Nat.le_of_lt_succ hlt
  have hadj1 : -(1 / 10) ≤ Stocksage.adjustment text seed := by
    simp only [Stocksage.adjustment]; linarith
  have hadj2 : Stocksage.adjustment text seed ≤ 1 / 10 := by
    simp only [Stocksage.adjustment]; linarith
  have hpos : (0 : ℤ) < days := hd
  have hfm : Int.fmod (stableHash (ticker ++ headline) : ℤ) days
      = (stableHash (ticker ++ headline) : ℤ) % days :=
    Int.fmod_eq_emod _ (le_of_lt hpos)
  refine ⟨hadj1, hadj2, le_max_right _ _, max_le (min_le_right _ _) (by norm_num), ?_, ?_, ?_⟩
  · simp only [Stocksage.dateOffsetVal, hfm]
    have := Int.emod_nonneg (stableHash (ticker ++ headline) : ℤ) (ne_of_gt hpos)
    linarith
  · simp only [Stocksage.dateOffsetVal, hfm]
    have := Int.emod_lt_of_pos (stableHash (ticker ++ headline) : ℤ) hpos
    linarith
  · simp only [Stocksage.get_deterministic_social_media_mentions]
    have hb : (1000 : ℚ) ≤ ((stableHash ticker % 5000 + 1000 : ℕ) : ℚ) := by
      exact_mod_cast Nat.le_add_left 1000 _
    have hf : (1 : ℚ) ≤ max 1 ((nc : ℚ) / 2) := le_max_left _ _
    have hq : (1000 : ℚ) ≤ ((stableHash ticker % 5000 + 1000 : ℕ) : ℚ) * max 1 ((nc : ℚ) / 2) := by
      nlinarith
    rw [pyInt_of_nonneg (by linarith)]
    exact Int.le_floor.mpr (by exact_mod_cast hq)

/-- C3 witness: the theorem applied at concrete strings, days = 30 and a
news count of 7. -/
theorem c3_witness :
    -(1 / 10) ≤ Stocksage.adjustment "Growth" "AAPL" ∧
    Stocksage.adjustment "Growth" "AAPL" ≤ 1 / 10 ∧
    -1 ≤ Stocksage.get_deterministic_sentiment (fun _ => 0) "Growth" "AAPL" ∧
    Stocksage.get_deterministic_sentiment (fun _ => 0) "Growth" "AAPL" ≤ 1 ∧
    1 ≤ Stocksage.dateOffsetVal "AAPL" "News" 30 ∧
    Stocksage.dateOffsetVal "AAPL" "News" 30 ≤ 30 ∧
    1000 ≤ Stocksage.get_deterministic_social_media_mentions "AAPL" 7 :=
  c3_range_bounds (fun _ => 0) "Growth" "AAPL" "AAPL" "News" 30 7 (by norm_num)

namespace Stocksage

/-- The value `scoreItem` delivers when `days ≠ 0`. -/
def scoreItemVal (pol : String → ℚ) (today : Int) (ticker : String) (days : Int)
    (item : NewsItem) : ScoredNewsItem :=
  let score := itemScore pol ticker item
  { headline := item.title.getD "No title",
    source := item.source.getD "Unknown",
    date := formatDate (today - dateOffsetVal ticker (item.title.getD "") days),
    sentiment := itemLabel score,
    sentiment_score := pyRound2 score,
    url := item.link.getD "",
    snippet := item.snippet.getD "No content available" }

lemma scoreItem_eq_some {days : Int} (hd : days ≠ 0) (pol : String → ℚ)
    (today : Int) (ticker : String) (item : NewsItem) :
    scoreItem pol today ticker days item = some (scoreItemVal pol today ticker days item) := by
  simp only [scoreItem, get_deterministic_date, dateOffset, if_neg hd]
  rfl

lemma scoreItem_eq_none (pol : String → ℚ) (today : Int) (ticker : String) (item : NewsItem) :
    scoreItem pol today ticker 0 item = none := rfl

lemma scoreAll_eq_map {days : Int} (hd : days ≠ 0) (pol : String → ℚ)
    (today : Int) (ticker : String) (l : List NewsItem) :
    scoreAll pol today ticker days l = some (l.map (scoreItemVal pol today ticker days)) := by
  induction l with
  | nil => rfl
  | cons item rest ih => simp only [scoreAll, scoreItem_eq_some hd, ih, List.map_cons]

lemma scoreAll_zero (pol : String → ℚ) (today : Int) (ticker : String)
    (item : NewsItem) (rest : List NewsItem) :
    scoreAll pol today ticker 0 (item :: rest) = none := by
  simp only [scoreAll, scoreItem_eq_none]

lemma takenItems_length (net : Except String SerperResponse) (ticker : String)
    (q : Option String) :
    (takenItems net ticker q).length = min (fetch_stock_news net ticker q).length 10 := by
  simp only [takenItems, List.length_take]
  omega

lemma takenItems_eq_take_ten (net : Except String SerperResponse) (ticker : String)
    (q : Option String) :
    takenItems net ticker q = (fetch_stock_news net ticker q).take 10 := by
  simp only [takenItems]
  rcases le_or_lt (fetch_stock_news net ticker q).length 10 with h | h
  · rw [min_eq_left h, List.take_of_length_le (le_refl _), List.take_of_length_le h]
  · rw [min_eq_right (le_of_lt h)]

end Stocksage
/-- A concrete Serper outcome whose parsed body has an empty news array
and no organic results, so zero items get scored. -/
def emptySerper : Except String SerperResponse :=
  Except.ok { news := some [], organic := none }

/-- C2 (amended to days ≠ 0): the pipeline always returns a complete
report — no exception escapes — and any fetch failure is absorbed inside
`fetch_stock_news`, which returns the fallback news for the same
(ticker, search_query). -/
theorem c2_total_and_failures_absorbed (pol : String → ℚ)
    (net : Except String SerperResponse) (today : Int) (ticker : String)
    (days : Int) (q : Option String) (e : String) (hd : days ≠ 0) :
    (Stocksage.run pol net today ticker days q).isSome = true ∧
    Stocksage.fetch_stock_news (Except.error e) ticker q
      = Stocksage.get_fallback_news_data ticker q := by
  refine ⟨?_, rfl⟩
  simp only [Stocksage.run, Stocksage.scoreAll_eq_map hd]
  rfl

/-- C2 witness: the theorem applied at a concrete input with days = 30. -/
theorem c2_witness :
    (Stocksage.run polZero emptySerper 20000 "ZZZZ" 30 none).isSome = true ∧
    Stocksage.fetch_stock_news (Except.error "connection refused") "ZZZZ" none
      = Stocksage.get_fallback_news_data "ZZZZ" none :=
  c2_total_and_failures_absorbed polZero emptySerper 20000 "ZZZZ" 30 none
    "connection refused" (by norm_num)

/-- C2 counterexample: as stated for every integer `days` the claim
fails — with `days = 0` and a failed fetch the date computation divides
by zero, so `_run` raises instead of returning a report. -/
theorem c2_counterexample_days_zero :
    Stocksage.run polZero (Except.error "network unreachable") 20000 "AAPL" 0 none
      = none := by
  have h : Stocksage.takenItems (Except.error "network unreachable") "AAPL" none
      = (Stocksage.get_fallback_news_data "AAPL" none).take 10 :=
    Stocksage.takenItems_eq_take_ten _ _ _
  simp only [Stocksage.run, h]
  rfl
/-- C8: the scorer processes exactly the first min(n, 10) fetched items —
`news_count` equals min(n, 10), equals the length of `news_items`, and
never exceeds 10. -/
theorem c8_first_min_ten_items (pol : String → ℚ) (net : Except String SerperResponse)
    (today : Int) (ticker : String) (q : Option String) (days : Int) (hd : days ≠ 0) :
    Stocksage.takenItems net ticker q
      = (Stocksage.fetch_stock_news net ticker q).take 10 ∧
    (Stocksage.run pol net today ticker days q).map (fun r => r.news_count)
      = some (min (Stocksage.fetch_stock_news net ticker q).length 10) ∧
    (Stocksage.run pol net today ticker days q).map (fun r => r.news_items.length)
      = some (min (Stocksage.fetch_stock_news net ticker q).length 10) ∧
    min (Stocksage.fetch_stock_news net ticker q).length 10 ≤ 10 := by
  have hlen := Stocksage.takenItems_length net ticker q
  refine ⟨Stocksage.takenItems_eq_take_ten _ _ _, ?_, ?_, min_le_right _ _⟩ <;>
    simp [Stocksage.run, Stocksage.scoreAll_eq_map hd, Stocksage.mkReport, hlen]

/-- A concrete Serper outcome carrying twelve news items with no fields. -/
def twelveSerper : Except String SerperResponse :=
  Except.ok { news := some (List.replicate 12 ⟨none, none, none, none⟩), organic := none }

/-- C8 witness: the theorem applied to a 12-item fetch result. -/
theorem c8_witness :
    Stocksage.takenItems twelveSerper "AAPL" none
      = (Stocksage.fetch_stock_news twelveSerper "AAPL" none).take 10 ∧
    (Stocksage.run polZero twelveSerper 20000 "AAPL" 30 none).map (fun r => r.news_count)
      = some (min (Stocksage.fetch_stock_news twelveSerper "AAPL" none).length 10) ∧
    (Stocksage.run polZero twelveSerper 20000 "AAPL" 30 none).map
        (fun r => r.news_items.length)
      = some (min (Stocksage.fetch_stock_news twelveSerper "AAPL" none).length 10) ∧
    min (Stocksage.fetch_stock_news twelveSerper "AAPL" none).length 10 ≤ 10 :=
  c8_first_min_ten_items polZero twelveSerper 20000 "AAPL" none 30 (by decide)

/-- C7: when at least one item is scored, the overall score is the mean of
the per-item scores rounded to two decimals; with zero scored items the
computation still succeeds and falls back to the deterministic sentiment
of the ticker itself with seed "fallback". -/
theorem c7_overall_mean_or_ticker_fallback (pol : String → ℚ)
    (net : Except String SerperResponse) (today : Int) (ticker : String)
    (q : Option String) (days : Int) (hd : days ≠ 0) :
    (Stocksage.run pol net today ticker days q).map (fun r => r.overall_sentiment_score)
      = some (if (Stocksage.takenItems net ticker q).isEmpty
          then Stocksage.get_deterministic_sentiment pol ticker "fallback"
          else pyRound2 (((Stocksage.takenItems net ticker q).map
                (Stocksage.itemScore pol ticker)).sum
              / ((Stocksage.takenItems net ticker q).length : ℚ))) := by
  simp only [Stocksage.run, Stocksage.scoreAll_eq_map hd]
  by_cases he : (Stocksage.takenItems net ticker q).isEmpty
  · simp [Stocksage.mkReport, he, List.isEmpty_iff.mp he]
  · simp [Stocksage.mkReport, he, List.isEmpty_iff]
    intro habs
    exact absurd (by simp [habs, List.isEmpty_iff]) he
namespace Stocksage

/-- Blank out the clock-dependent date of a scored item. -/
def eraseItemDate (it : ScoredNewsItem) : ScoredNewsItem := { it with date := "" }

/-- Blank out the clock-dependent dates of a report. -/
def eraseDates (r : SentimentReport) : SentimentReport :=
  { r with news_items := r.news_items.map eraseItemDate }

lemma eraseDates_mkReport (pol : String → ℚ) (ticker : String) (q : Option String)
    (items : List NewsItem) (p : List ScoredNewsItem) :
    eraseDates (mkReport pol ticker q items p)
      = mkReport pol ticker q items (p.map eraseItemDate) := by
  cases p <;> simp [eraseDates, mkReport, List.length_map]

end Stocksage

/-- C1 (amended): every clock-independent part of the report is
byte-identical across runs — two invocations on the same inputs agree on
everything except the `date` fields, which shift with `datetime.now()`;
with the same current date the whole report is identical. -/
theorem c1_deterministic_up_to_dates (pol : String → ℚ)
    (net : Except String SerperResponse) (ticker : String) (q : Option String)
    (d today₁ today₂ : Int) :
    (Stocksage.run pol net today₁ ticker d q).map Stocksage.eraseDates
      = (Stocksage.run pol net today₂ ticker d q).map Stocksage.eraseDates := by
  by_cases hd : d = 0
  · subst hd
    cases hl : Stocksage.takenItems net ticker q with
    | nil => simp [Stocksage.run, hl, Stocksage.scoreAll]
    | cons item rest => simp [Stocksage.run, hl, Stocksage.scoreAll_zero]
  · simp only [Stocksage.run, Stocksage.scoreAll_eq_map hd, Option.map_some']
    rw [Stocksage.eraseDates_mkReport, Stocksage.eraseDates_mkReport,
      List.map_map, List.map_map]
    have hcomp : (Stocksage.eraseItemDate ∘ Stocksage.scoreItemVal pol today₁ ticker d)
        = (Stocksage.eraseItemDate ∘ Stocksage.scoreItemVal pol today₂ ticker d) :=
      funext (fun item => rfl)
    rw [hcomp]

/-- C1 counterexample: with the clock forty days later, the same
(ticker, headline, days) input produces a different date string, and the
same fallback-path invocation produces a report with different dates. -/
theorem c1_counterexample_dates_shift_with_clock :
    Stocksage.get_deterministic_date 20000 "AAPL" "Growth" 30
      ≠ Stocksage.get_deterministic_date 20040 "AAPL" "Growth" 30 ∧
    (Stocksage.run polZero (Except.error "network unreachable") 20000 "AAPL" 30 none).map
        (fun r => r.news_items.map (fun it => it.date))
      ≠ (Stocksage.run polZero (Except.error "network unreachable") 20040 "AAPL" 30 none).map
        (fun r => r.news_items.map (fun it => it.date)) :=
  ⟨by decide, by decide⟩

/-- C7 witness: the theorem applied to a fetch outcome with an empty news
array, exercising the zero-items fallback branch. -/
theorem c7_witness :
    (Stocksage.run polZero emptySerper 20000 "AAPL" 30 none).map
        (fun r => r.overall_sentiment_score)
      = some (if (Stocksage.takenItems emptySerper "AAPL" none).isEmpty
          then Stocksage.get_deterministic_sentiment polZero "AAPL" "fallback"
          else pyRound2 (((Stocksage.takenItems emptySerper "AAPL" none).map
                (Stocksage.itemScore polZero "AAPL")).sum
              / ((Stocksage.takenItems emptySerper "AAPL" none).length : ℚ))) :=
  c7_overall_mean_or_ticker_fallback polZero emptySerper 20000 "AAPL" none 30 (by decide)
